import Mathlib

/-!
# Verification of the RP-Camera-Server client control logic

This file embeds, in Lean, the control-plane logic of the camera web client
(the `CameraStream`, `Gallery` and `CameraModeSelector` React components) and
proves properties about it.  React `useState` cells become fields of explicit
state records; each async handler becomes a pure function from the pre-state
and the HTTP outcome to the post-state (network effects are recorded as
explicit call tags).  JavaScript strings used as enums become inductive types;
JS numbers that the code only compares and copies become `Nat`.
-/

/-- Outcome of one `fetch` as the handlers branch on it:
`ok` with the parsed JSON body, a non-2xx response (`response.ok` false,
with the optional `{error}` body), or a thrown network error (`catch`). -/
inductive Resp (α : Type) where
  | ok (val : α)
  | httpErr (body : Option String)
  | netErr
deriving DecidableEq

/-- Whether the outcome is one of the two failure branches of a handler (`!response.ok` / `catch`). -/
def Resp.isFail {α : Type} : Resp α → Bool
  | .ok _ => false
  | .httpErr _ => true
  | .netErr => true

/-- Network requests a handler issues, in order. -/
inductive CallTag where
  | cameraStart
  | cameraStop
  | cameraRestart
  | statusFetch
  | captureCall
  | recordStartCall
  | recordStopCall
  | modeChangeCall
deriving DecidableEq

/-- The `CameraMode` interface of `CameraStream.tsx` (the status payload's mode). -/
structure CameraMode where
  width : Nat
  height : Nat
  framerate : Nat
  name : String
deriving DecidableEq

/-- The `RecordingStatus` interface: the `recording` field of the status payload. -/
structure RecordingStatus where
  recording : Bool
  filename : Option String
  duration : Nat
  start_time : Option Nat
deriving DecidableEq

/-- The `status` field is the string `'active'` or `'inactive'`; both are
non-empty strings, hence truthy in the JS guards that test `cameraStatus?.status`. -/
inductive CamActivity where
  | active
  | inactive
deriving DecidableEq

/-- The `CameraStatus` interface: body of `GET /api/camera/status`.  The code
guards `if (status.recording)` before reading it, so `recording` is modelled
as optional even though the TS interface declares it present. -/
structure CameraStatus where
  status : CamActivity
  streaming : Bool
  last_access : Option Nat
  current_mode : Option CameraMode
  recording : Option RecordingStatus
deriving DecidableEq

/-- Payload of a successful `POST /api/camera/capture`. -/
structure CaptureResult where
  filename : String
  url : String
  timestamp : String
deriving DecidableEq

/-- Payload of a successful `POST /api/camera/recording/stop`. -/
structure RecordingResult where
  filename : String
  url : String
  duration : Nat
deriving DecidableEq

/-- The `useState` cells of the `CameraStream` component. -/
structure ClientState where
  isStreaming : Bool
  cameraStatus : Option CameraStatus
  isLoading : Bool
  error : Option String
  isServerConnected : Bool
  isCapturing : Bool
  lastCapturedImage : Option CaptureResult
  captureSuccess : Option String
  isRecording : Bool
  recordingDuration : Nat
  lastRecording : Option RecordingResult
  recordingSuccess : Option String
deriving DecidableEq

/-- Handler `checkStatus`: fetch `/api/camera/status`; on `response.ok` store the body,
mark the server connected and clear the error, mirroring `status.recording`
into `isRecording`/`recordingDuration` when present; on a non-ok response or a
thrown error mark the server disconnected and set an error message, leaving
`cameraStatus` and the recording mirror untouched. -/
def checkStatusRun (s : ClientState) (r : Resp CameraStatus) : ClientState :=
  match r with
  | .ok st =>
    let s1 := { s with cameraStatus := some st, isServerConnected := true, error := none }
    match st.recording with
    | some rcd => { s1 with isRecording := rcd.recording, recordingDuration := rcd.duration }
    | none => s1
  | .httpErr _ =>
    { s with isServerConnected := false, error := some "Camera server not responding" }
  | .netErr =>
    { s with isServerConnected := false,
             error := some "Cannot connect to camera server. Make sure it's running on port 5000." }

/-- Transport calls `checkStatus` makes: exactly the one status fetch. -/
def checkStatusCalls : List CallTag := [.statusFetch]

/-- Handler `startStreaming`: set loading, clear error, fetch `/api/camera/start`;
on ok set `isStreaming` (the deferred feed attach and status re-check are
timer callbacks, modelled with the stream-session state below); on failure set
the error from the body or the default; finally clear loading. -/
def startStreamingRun (s : ClientState) (r : Resp Unit) : ClientState :=
  let s0 := { s with isLoading := true, error := none }
  let s1 :=
    match r with
    | .ok _ => { s0 with isStreaming := true }
    | .httpErr body => { s0 with error := some (body.getD "Failed to start camera streaming") }
    | .netErr =>
      { s0 with error := some "Error starting camera stream. Make sure the camera server is running." }
  { s1 with isLoading := false }

/-- Transport calls of `startStreaming` (one call on every branch). -/
def startStreamingCalls : List CallTag := [.cameraStart]

/-- Handler `stopStreaming`: set loading, clear error, fetch `/api/camera/stop`;
on ok clear `isStreaming` (and blank the img src); on failure set the error;
finally clear loading. -/
def stopStreamingRun (s : ClientState) (r : Resp Unit) : ClientState :=
  let s0 := { s with isLoading := true, error := none }
  let s1 :=
    match r with
    | .ok _ => { s0 with isStreaming := false }
    | .httpErr _ => { s0 with error := some "Failed to stop camera streaming" }
    | .netErr => { s0 with error := some "Error stopping camera stream" }
  { s1 with isLoading := false }

/-- Transport calls of `stopStreaming`. -/
def stopStreamingCalls : List CallTag := [.cameraStop]

/-- Handler `restartCamera`: set loading, clear error, fetch `/api/camera/restart`;
on ok, `await checkStatus()` before the handler returns (a second transport
call whose own outcome is `sr`); on failure set the error; finally clear
loading.  Returns the post-state and the ordered transport calls. -/
def restartCameraRun (s : ClientState) (r : Resp Unit) (sr : Resp CameraStatus) :
    ClientState × List CallTag :=
  let s0 := { s with isLoading := true, error := none }
  match r with
  | .ok _ =>
    let s1 := checkStatusRun s0 sr
    ({ s1 with isLoading := false }, [.cameraRestart, .statusFetch])
  | .httpErr _ =>
    ({ s0 with error := some "Failed to restart camera", isLoading := false }, [.cameraRestart])
  | .netErr =>
    ({ s0 with error := some "Error restarting camera", isLoading := false }, [.cameraRestart])

/-- Handler `capturePicture`: set capturing, clear error and the success banner, POST
`/api/camera/capture`; on ok store the result and a success message; on failure
set the error; finally clear capturing. -/
def capturePictureRun (s : ClientState) (r : Resp CaptureResult) : ClientState :=
  let s0 := { s with isCapturing := true, error := none, captureSuccess := none }
  let s1 :=
    match r with
    | .ok res =>
      { s0 with lastCapturedImage := some res,
                captureSuccess := some ("Picture captured: " ++ res.filename) }
    | .httpErr body => { s0 with error := some (body.getD "Failed to capture picture") }
    | .netErr =>
      { s0 with error := some "Error capturing picture. Make sure the camera server is running." }
  { s1 with isCapturing := false }

/-- Transport calls of `capturePicture`. -/
def capturePictureCalls : List CallTag := [.captureCall]

/-- Handler `startRecording`: clear error and the success banner, POST
`/api/camera/recording/start`; on ok (body carries the filename) set
`isRecording`, zero the duration and show a success message; on failure set
the error.  No busy flag is involved. -/
def startRecordingRun (s : ClientState) (r : Resp String) : ClientState :=
  let s0 := { s with error := none, recordingSuccess := none }
  match r with
  | .ok filename =>
    { s0 with isRecording := true, recordingDuration := 0,
              recordingSuccess := some ("Recording started: " ++ filename) }
  | .httpErr body => { s0 with error := some (body.getD "Failed to start recording") }
  | .netErr =>
    { s0 with error := some "Error starting recording. Make sure the camera server is running." }

/-- Transport calls of `startRecording`. -/
def startRecordingCalls : List CallTag := [.recordStartCall]

/-- Handler `stopRecording`: clear error and the success banner, POST
`/api/camera/recording/stop`; on ok clear `isRecording`, zero the duration,
store the result and show a success message; on failure set the error. -/
def stopRecordingRun (s : ClientState) (r : Resp RecordingResult) : ClientState :=
  let s0 := { s with error := none, recordingSuccess := none }
  match r with
  | .ok res =>
    { s0 with isRecording := false, recordingDuration := 0, lastRecording := some res,
              recordingSuccess := some ("Recording saved: " ++ res.filename) }
  | .httpErr body => { s0 with error := some (body.getD "Failed to stop recording") }
  | .netErr => { s0 with error := some "Error stopping recording. Make sure the camera server is running." }

/-- Transport calls of `stopRecording`. -/
def stopRecordingCalls : List CallTag := [.recordStopCall]

/-- The user-issued commands of the `CameraStream` controls row. -/
inductive CommandKind where
  | startStream
  | stopStream
  | restart
  | capture
  | startRecord
  | stopRecord
deriving DecidableEq

/-- Whether each control is clickable, read off the JSX `disabled` expressions
(a button is issuable iff it is rendered and not disabled).
`cameraStatus?.status` is `'active'` or `'inactive'`, both truthy strings, so
`!cameraStatus?.status` is exactly `cameraStatus` being absent. -/
def commandEnabled (s : ClientState) : CommandKind → Bool
  | .startStream => !s.isStreaming && !(s.isLoading || !s.isServerConnected)
  | .stopStream => s.isStreaming && !s.isLoading
  | .restart => !(s.isLoading || !s.isServerConnected)
  | .capture =>
    !(s.isCapturing || !s.isServerConnected || !s.cameraStatus.isSome || !s.isStreaming)
  | .startRecord => !s.isRecording && !(!s.isServerConnected || !s.cameraStatus.isSome)
  | .stopRecord => s.isRecording

/-- Clicking a disabled control does nothing; an enabled control's handler
unconditionally issues one request to its endpoint. -/
def clickTransportCalls (s : ClientState) (k : CommandKind) : Nat :=
  if commandEnabled s k then 1 else 0

/-- The manual "Refresh Status" button is `disabled={isLoading}`. -/
def refreshStatusClickCalls (s : ClientState) : Nat :=
  if s.isLoading then 0 else 1

/-- The polling interval of the automatic `setInterval(checkStatus, 5000)`. -/
def statusPollIntervalMs : Nat := 5000

/-- State of the live-feed `<img>` element and the client's streaming belief,
as `handleImageError` reads them: whether `imgRef.current` exists, whether
`isStreaming` is set, how many times a stream URL has been assigned to the
element (each assignment is one open attempt against `/api/stream`), and
whether the failure branch has shown its error. -/
structure StreamFeedState where
  isStreaming : Bool
  imgPresent : Bool
  openAttempts : Nat
  streamErrorShown : Bool
deriving DecidableEq

/-- What `handleImageError` decides to do on a feed error. -/
inductive FeedAction where
  | scheduleReload (delayMs : Nat)
  | failAndStop
deriving DecidableEq

/-- Handler `handleImageError`: if the element exists and the client believes it is
streaming, schedule a reload after 2000 ms (the callback re-assigns the stream
URL with a fresh `Date.now()` cache-busting token); otherwise show the error
and clear `isStreaming`. -/
def handleImageError (s : StreamFeedState) : FeedAction :=
  if s.imgPresent && s.isStreaming then .scheduleReload 2000 else .failAndStop

/-- The reload timer callback: it re-checks `imgRef.current && isStreaming`
before acting, assigning a fresh stream URL (one more open attempt) only if
still applicable, and is a no-op otherwise. -/
def reloadCallback (s : StreamFeedState) : StreamFeedState :=
  if s.imgPresent && s.isStreaming then { s with openAttempts := s.openAttempts + 1 } else s

/-- One feed-error event end to end: run `handleImageError`, and if a reload
was scheduled, fire the timer callback (no state change occurs in between in
this event's scope). -/
def feedErrorEvent (s : StreamFeedState) : StreamFeedState :=
  match handleImageError s with
  | .scheduleReload _ => reloadCallback s
  | .failAndStop => { s with streamErrorShown := true, isStreaming := false }

/-- The `MediaFile` interface of `Gallery.tsx`. -/
structure MediaFile where
  filename : String
  url : String
  size : Nat
  created : Nat
deriving DecidableEq

/-- The `GalleryData` state: the component state holding the two media lists. -/
structure GalleryData where
  pictures : List MediaFile
  recordings : List MediaFile
deriving DecidableEq

/-- Parsed body of `GET /api/camera/pictures`; the `pictures` field may be
absent from the JSON. -/
structure PicturesBody where
  pictures : Option (List MediaFile)
deriving DecidableEq

/-- Parsed body of `GET /api/camera/recordings`; the `recordings` field may be
absent from the JSON. -/
structure RecordingsBody where
  recordings : Option (List MediaFile)
deriving DecidableEq

/-- Handler `fetchGalleryData`: both endpoints are fetched via `Promise.all`.  If both
responses are ok, store `picturesData.pictures || []` and
`recordingsData.recordings || []` and clear the error; if either fetch threw,
the `catch` sets a connection error; otherwise the non-ok branch sets a fetch
error.  On every failure the previous gallery data is kept.  Returns the new
gallery state and the error cell. -/
def fetchGalleryDataRun (g : GalleryData) (pr : Resp PicturesBody) (rr : Resp RecordingsBody) :
    GalleryData × Option String :=
  match pr, rr with
  | .ok pb, .ok rb =>
    ({ pictures := pb.pictures.getD [], recordings := rb.recordings.getD [] }, none)
  | .netErr, _ => (g, some "Error connecting to camera server")
  | _, .netErr => (g, some "Error connecting to camera server")
  | _, _ => (g, some "Failed to fetch gallery data")

/-- Derived `totalFiles`: `galleryData.pictures.length + galleryData.recordings.length`. -/
def totalFiles (g : GalleryData) : Nat :=
  g.pictures.length + g.recordings.length

/-- Derived `totalSize`: `[...pictures, ...recordings].reduce((sum, file) => sum + file.size, 0)`. -/
def totalSize (g : GalleryData) : Nat :=
  (g.pictures ++ g.recordings).foldl (fun sum file => sum + file.size) 0

namespace ModeSelector

/-- The `CameraMode` interface of `CameraModeSelector.tsx` (richer than the
status payload's mode: it also carries `id` and `description`). -/
structure CameraMode where
  id : String
  name : String
  width : Nat
  height : Nat
  framerate : Nat
  description : String
deriving DecidableEq

/-- The `useState` cells of the `CameraModeSelector` component. -/
structure ModeSelectorState where
  modes : List CameraMode
  currentMode : Option CameraMode
  selectedModeId : String
  isLoading : Bool
  isChanging : Bool
  error : Option String
deriving DecidableEq

/-- The early-return guard of `changeMode`:
`if (!modeId || modeId === currentMode?.id) return`.  An empty string is the
only falsy `modeId`; `currentMode?.id` is undefined when `currentMode` is null
and then equals no string. -/
def changeModeShortCircuit (s : ModeSelectorState) (modeId : String) : Bool :=
  modeId == "" ||
    (match s.currentMode with
     | some m => modeId == m.id
     | none => false)

/-- Result of one `changeMode` invocation: the post-state, how many transport
calls were made, and the argument of the `onModeChange` parent callback if it
was invoked. -/
structure ModeChangeOutcome where
  state : ModeSelectorState
  transportCalls : Nat
  callback : Option CameraMode
deriving DecidableEq

/-- Handler `changeMode(modeId)`: return immediately on the guard; otherwise set
changing, clear the error, POST `/api/camera/mode`; on ok look the id up in
the locally fetched `modes` — only if found, update `currentMode` and
`selectedModeId` and notify the parent; on failure set the error from the body
or the default; finally clear changing. -/
def changeModeRun (s : ModeSelectorState) (modeId : String) (r : Resp Unit) : ModeChangeOutcome :=
  if changeModeShortCircuit s modeId then
    { state := s, transportCalls := 0, callback := none }
  else
    let s0 := { s with isChanging := true, error := none }
    match r with
    | .ok _ =>
      match s.modes.find? (fun m => m.id == modeId) with
      | some newMode =>
        { state := { s0 with currentMode := some newMode, selectedModeId := modeId,
                             isChanging := false },
          transportCalls := 1, callback := some newMode }
      | none =>
        { state := { s0 with isChanging := false }, transportCalls := 1, callback := none }
    | .httpErr body =>
      { state := { s0 with error := some (body.getD "Failed to change camera mode"),
                           isChanging := false },
        transportCalls := 1, callback := none }
    | .netErr =>
      { state := { s0 with error := some "Error changing camera mode", isChanging := false },
        transportCalls := 1, callback := none }

end ModeSelector

/-- The mode `Select` control is `disabled={disabled || isChanging}` where the
parent passes `disabled = !isServerConnected || isLoading`. -/
def modeSelectEnabled (parentConnected parentLoading : Bool) (ms : ModeSelector.ModeSelectorState) : Bool :=
  !((!parentConnected || parentLoading) || ms.isChanging)

/-- A status payload reporting an active, non-streaming, non-recording camera. -/
def statusActiveIdle : CameraStatus :=
  { status := .active, streaming := false, last_access := none,
    current_mode := none, recording := none }

/-- Client state right after a successful poll of an idle camera: connected,
status known, not streaming, nothing in flight. -/
def baseClientState : ClientState :=
  { isStreaming := false, cameraStatus := some statusActiveIdle, isLoading := false,
    error := none, isServerConnected := true, isCapturing := false,
    lastCapturedImage := none, captureSuccess := none, isRecording := false,
    recordingDuration := 0, lastRecording := none, recordingSuccess := none }

/-- The same client state while a stream/restart command is awaiting its
response (`isLoading` set by the handler before the `await`). -/
def busyClientState : ClientState :=
  { baseClientState with isLoading := true }

/-- Client state while a capture is in flight (`isCapturing` set, streaming). -/
def capturingClientState : ClientState :=
  { baseClientState with isStreaming := true, isCapturing := true }

/-- Feed-session state right after the first successful stream attach:
streaming, element mounted, one open attempt so far. -/
def streamingFeedState : StreamFeedState :=
  { isStreaming := true, imgPresent := true, openAttempts := 1, streamErrorShown := false }

/-- An example selector mode. -/
def exampleMode : ModeSelector.CameraMode :=
  { id := "hd", name := "HD 1080p", width := 1920, height := 1080, framerate := 30,
    description := "Full HD" }

/-- An example selector state whose current mode is `exampleMode`. -/
def exampleSelectorState : ModeSelector.ModeSelectorState :=
  { modes := [exampleMode], currentMode := some exampleMode, selectedModeId := "hd",
    isLoading := false, isChanging := false, error := none }

/-- C1 counterexample: with the snapshot reporting `streaming=false` (both the
client's `isStreaming` flag and the polled status), a START_RECORD request is
not rejected — the Start Recording control is enabled whenever the server is
connected and a status snapshot exists, so the handler runs and issues the
network call.  This refutes the claim that START_RECORD while `streaming=false`
is rejected without a network call. -/
theorem c1_counterexample :
    baseClientState.isStreaming = false ∧
    baseClientState.cameraStatus.map CameraStatus.streaming = some false ∧
    clickTransportCalls baseClientState .startRecord = 1 := by
  decide

/-- C1 (amended): while `streaming=false`, CAPTURE is rejected (the control is
disabled, so no transport call is made — there is no `ErrorKind` value, the
rejection is silent), but START_RECORD is not gated on streaming: it is issued,
with a transport call, whenever the server is connected, a status snapshot
exists and no recording is active. -/
theorem c1_capture_gated_record_not (s : ClientState) (h : s.isStreaming = false) :
    clickTransportCalls s .capture = 0 ∧
    (s.isServerConnected = true → s.cameraStatus.isSome = true → s.isRecording = false →
      clickTransportCalls s .startRecord = 1) := by
  constructor
  · simp [clickTransportCalls, commandEnabled, h]
  · intro h1 h2 h3
    simp [clickTransportCalls, commandEnabled, h1, h2, h3]

/-- C1 witness: the amended theorem instantiated at the idle connected state. -/
theorem c1_witness :
    baseClientState.isStreaming = false ∧
    (clickTransportCalls baseClientState .capture = 0 ∧
      (baseClientState.isServerConnected = true → baseClientState.cameraStatus.isSome = true →
        baseClientState.isRecording = false →
        clickTransportCalls baseClientState .startRecord = 1)) :=
  ⟨by decide, c1_capture_gated_record_not baseClientState (by decide)⟩

/-- C2 counterexample: while a stream command is in flight (`isLoading`, the
dispatcher-busy flag of the stream/restart commands), a START_RECORD request is
accepted and reaches the network; and while a CAPTURE is in flight
(`isCapturing`), a STOP_STREAM request is accepted and reaches the network.
This refutes the claim that every second command while one is pending is
rejected as busy before reaching Transport. -/
theorem c2_counterexample :
    (busyClientState.isLoading = true ∧
      clickTransportCalls busyClientState .startRecord = 1) ∧
    (capturingClientState.isCapturing = true ∧
      clickTransportCalls capturingClientState .stopStream = 1) := by
  decide

/-- C2 (amended): while a stream/restart command is in flight (`isLoading`),
further START_STREAM, STOP_STREAM and RESTART clicks, the manual status
refresh, and the mode `Select` are all rejected without a transport call; but
recording commands are not serialized against it (START_RECORD is issued
whenever its own gate passes and STOP_RECORD whenever a recording is active),
and CAPTURE is serialized only against another capture, not against
`isLoading`. -/
theorem c2_partial_serialization (s : ClientState) (ms : ModeSelector.ModeSelectorState)
    (h : s.isLoading = true) :
    clickTransportCalls s .startStream = 0 ∧
    clickTransportCalls s .stopStream = 0 ∧
    clickTransportCalls s .restart = 0 ∧
    refreshStatusClickCalls s = 0 ∧
    modeSelectEnabled s.isServerConnected s.isLoading ms = false ∧
    (s.isRecording = true → clickTransportCalls s .stopRecord = 1) ∧
    (s.isServerConnected = true → s.cameraStatus.isSome = true → s.isRecording = false →
      clickTransportCalls s .startRecord = 1) ∧
    (s.isCapturing = false → s.isServerConnected = true → s.cameraStatus.isSome = true →
      s.isStreaming = true → clickTransportCalls s .capture = 1) := by
  refine ⟨?_, ?_, ?_, ?_, ?_, ?_, ?_, ?_⟩
  · simp [clickTransportCalls, commandEnabled, h]
  · simp [clickTransportCalls, commandEnabled, h]
  · simp [clickTransportCalls, commandEnabled, h]
  · simp [refreshStatusClickCalls, h]
  · simp [modeSelectEnabled, h]
  · intro h1; simp [clickTransportCalls, commandEnabled, h1]
  · intro h1 h2 h3; simp [clickTransportCalls, commandEnabled, h1, h2, h3]
  · intro h1 h2 h3 h4; simp [clickTransportCalls, commandEnabled, h1, h2, h3, h4]

/-- C2 witness: the amended theorem instantiated at the busy state. -/
theorem c2_witness :
    busyClientState.isLoading = true ∧
    (clickTransportCalls busyClientState .startStream = 0 ∧
     clickTransportCalls busyClientState .stopStream = 0 ∧
     clickTransportCalls busyClientState .restart = 0 ∧
     refreshStatusClickCalls busyClientState = 0 ∧
     modeSelectEnabled busyClientState.isServerConnected busyClientState.isLoading
       exampleSelectorState = false ∧
     (busyClientState.isRecording = true → clickTransportCalls busyClientState .stopRecord = 1) ∧
     (busyClientState.isServerConnected = true → busyClientState.cameraStatus.isSome = true →
       busyClientState.isRecording = false →
       clickTransportCalls busyClientState .startRecord = 1) ∧
     (busyClientState.isCapturing = false → busyClientState.isServerConnected = true →
       busyClientState.cameraStatus.isSome = true → busyClientState.isStreaming = true →
       clickTransportCalls busyClientState .capture = 1)) :=
  ⟨by decide, c2_partial_serialization busyClientState exampleSelectorState (by decide)⟩

/-- C3 counterexample: starting from the state right after the first stream
attach (1 open attempt), two consecutive feed errors while the client still
believes it is streaming produce two further reloads — 3 open attempts in
total, with no failure sub-state entered and the streaming flag still set.
This refutes the claim that exactly 2 open attempts occur per failure event
and that the second error transitions to FAILED. -/
theorem c3_counterexample :
    (feedErrorEvent (feedErrorEvent streamingFeedState)).openAttempts = 3 ∧
    (feedErrorEvent (feedErrorEvent streamingFeedState)).streamErrorShown = false ∧
    (feedErrorEvent (feedErrorEvent streamingFeedState)).isStreaming = true := by
  decide

/-- C3 (amended): every feed error while the element is mounted and the client
believes it is streaming schedules exactly one reload after the fixed 2000 ms
backoff (with a fresh freshness token), and this repeats without bound — after
`n` such errors the handle has been opened `n` more times, no failure
sub-state is ever entered and streaming is never cleared on this path.  Only
an error arriving when the element is gone or streaming is already false shows
the error and clears the streaming flag. -/
theorem c3_unbounded_retry (n : Nat) (s t : StreamFeedState)
    (himg : s.imgPresent = true) (hstr : s.isStreaming = true)
    (ht : t.imgPresent = false ∨ t.isStreaming = false) :
    handleImageError s = .scheduleReload 2000 ∧
    feedErrorEvent^[n] s = { s with openAttempts := s.openAttempts + n } ∧
    feedErrorEvent t = { t with streamErrorShown := true, isStreaming := false } := by
  refine ⟨by simp [handleImageError, himg, hstr], ?_, ?_⟩
  · induction n generalizing s with
    | zero => simp
    | succ k ih =>
      rw [Function.iterate_succ_apply]
      have hstep : feedErrorEvent s = { s with openAttempts := s.openAttempts + 1 } := by
        simp [feedErrorEvent, handleImageError, reloadCallback, himg, hstr]
      rw [hstep, ih { s with openAttempts := s.openAttempts + 1 } himg hstr]
      have h2 : s.openAttempts + 1 + k = s.openAttempts + (k + 1) := by omega
      rw [h2]
  · have hcond : (t.imgPresent && t.isStreaming) = false := by
      rcases ht with h | h <;> simp [h]
    simp [feedErrorEvent, handleImageError, hcond]

/-- C3 witness: the amended theorem instantiated with two errors on the
just-attached feed and an error arriving after streaming stopped. -/
theorem c3_witness :
    streamingFeedState.imgPresent = true ∧ streamingFeedState.isStreaming = true ∧
    ((⟨false, true, 1, false⟩ : StreamFeedState).imgPresent = false ∨
      (⟨false, true, 1, false⟩ : StreamFeedState).isStreaming = false) ∧

    (handleImageError streamingFeedState = .scheduleReload 2000 ∧
     feedErrorEvent^[2] streamingFeedState =
       { streamingFeedState with openAttempts := streamingFeedState.openAttempts + 2 } ∧
     feedErrorEvent ⟨false, true, 1, false⟩ =
       { (⟨false, true, 1, false⟩ : StreamFeedState) with
           streamErrorShown := true, isStreaming := false }) :=
  ⟨by decide, by decide, Or.inr (by decide),
    c3_unbounded_retry 2 streamingFeedState ⟨false, true, 1, false⟩ (by decide) (by decide)
      (Or.inr (by decide))⟩

/-- A freshly observed status with the larger `last_access` timestamp. -/
def statusObservedNewer : CameraStatus :=
  { status := .active, streaming := true, last_access := some 100,
    current_mode := none, recording := none }

/-- A stale status whose `last_access` timestamp is older. -/
def statusObservedOlder : CameraStatus :=
  { status := .active, streaming := false, last_access := some 50,
    current_mode := none, recording := none }

/-- C4 counterexample: with the visible snapshot carrying the newer
observation (timestamp 100), a successful poll whose payload is older
(timestamp 50) is not discarded — `checkStatus` stores it unconditionally and
the visible snapshot changes to the stale payload.  This refutes the claim
that a replace carrying an older observation leaves the visible snapshot
unchanged. -/
theorem c4_counterexample :
    statusObservedOlder.last_access = some 50 ∧
    statusObservedNewer.last_access = some 100 ∧
    (checkStatusRun { baseClientState with cameraStatus := some statusObservedNewer }
        (.ok statusObservedOlder)).cameraStatus = some statusObservedOlder ∧
    some statusObservedOlder ≠ some statusObservedNewer := by
  decide

/-- C4 (amended): the replace path is unconditional — every successful status
fetch overwrites the visible snapshot wholesale with the response, with no
timestamp comparison of any kind, so an out-of-order (older) response
replaces fresher state rather than being discarded. -/
theorem c4_replace_unconditional (s : ClientState) (st : CameraStatus) :
    (checkStatusRun s (.ok st)).cameraStatus = some st := by
  cases h : st.recording <;> simp [checkStatusRun, h]

/-- C5: with the failure threshold of 1, a single failed status fetch (thrown
network error or non-ok response) flips `isServerConnected` to false while
leaving the last-known snapshot (mode and recording fields) and the recording
mirror untouched; the next successful fetch flips it back to true, replaces
the snapshot wholesale from the fresh response and refreshes the recording
mirror from the fresh `recording` field. -/
theorem c5_poll_failure_recovery (s : ClientState) (body : Option String)
    (act : CamActivity) (strm : Bool) (la : Option Nat) (cm : Option CameraMode)
    (rcd : RecordingStatus) :
    ((checkStatusRun s .netErr).isServerConnected = false ∧
     (checkStatusRun s .netErr).cameraStatus = s.cameraStatus ∧
     (checkStatusRun s .netErr).isRecording = s.isRecording ∧
     (checkStatusRun s .netErr).recordingDuration = s.recordingDuration) ∧
    ((checkStatusRun s (.httpErr body)).isServerConnected = false ∧
     (checkStatusRun s (.httpErr body)).cameraStatus = s.cameraStatus ∧
     (checkStatusRun s (.httpErr body)).isRecording = s.isRecording) ∧
    ((checkStatusRun (checkStatusRun s .netErr)
        (.ok ⟨act, strm, la, cm, some rcd⟩)).isServerConnected = true ∧
     (checkStatusRun (checkStatusRun s .netErr)
        (.ok ⟨act, strm, la, cm, some rcd⟩)).cameraStatus = some ⟨act, strm, la, cm, some rcd⟩ ∧
     (checkStatusRun (checkStatusRun s .netErr)
        (.ok ⟨act, strm, la, cm, some rcd⟩)).isRecording = rcd.recording ∧
     (checkStatusRun (checkStatusRun s .netErr)
        (.ok ⟨act, strm, la, cm, some rcd⟩)).recordingDuration = rcd.duration) := by
  simp [checkStatusRun]

/-- C6: a CHANGE_MODE request whose target id equals the already-current mode
id short-circuits on the early-return guard — the handler returns immediately
with the state unchanged (no error is raised, so the outcome is a success),
zero transport calls and no parent callback. -/
theorem c6_changeMode_noop (ms : ModeSelector.ModeSelectorState) (modeId : String)
    (m : ModeSelector.CameraMode) (r : Resp Unit)
    (hcur : ms.currentMode = some m) (hid : modeId = m.id) :
    ModeSelector.changeModeRun ms modeId r =
      { state := ms, transportCalls := 0, callback := none } := by
  have hsc : ModeSelector.changeModeShortCircuit ms modeId = true := by
    simp [ModeSelector.changeModeShortCircuit, hcur, hid]
  simp [ModeSelector.changeModeRun, hsc]

/-- C6 witness: the no-op short-circuit at a concrete selector state whose
current mode id is requested again. -/
theorem c6_witness :
    exampleSelectorState.currentMode = some exampleMode ∧
    "hd" = exampleMode.id ∧
    ModeSelector.changeModeRun exampleSelectorState "hd" (.ok ()) =
      { state := exampleSelectorState, transportCalls := 0, callback := none } :=
  ⟨rfl, rfl, c6_changeMode_noop exampleSelectorState "hd" exampleMode (.ok ()) rfl rfl⟩

/-- C7: for every command whose transport call fails (non-ok response with any
body, or a thrown network error), the streaming and recording fields —
`isStreaming`, `isRecording` and the polled snapshot — are left exactly as
they were before the call, the busy flag the handler set is cleared again
(back to IDLE), an error message is surfaced for display, and exactly the one
transport call was made (no automatic retry). -/
theorem c7_failure_preserves_state (s : ClientState) (r : Resp Unit) (sr : Resp CameraStatus)
    (rc : Resp CaptureResult) (rs : Resp String) (rr : Resp RecordingResult)
    (hr : r.isFail = true) (hrc : rc.isFail = true) (hrs : rs.isFail = true)
    (hrr : rr.isFail = true) :
    ((startStreamingRun s r).isStreaming = s.isStreaming ∧
     (startStreamingRun s r).isRecording = s.isRecording ∧
     (startStreamingRun s r).cameraStatus = s.cameraStatus ∧
     (startStreamingRun s r).isLoading = false ∧
     (startStreamingRun s r).error.isSome = true ∧
     startStreamingCalls = [.cameraStart]) ∧
    ((stopStreamingRun s r).isStreaming = s.isStreaming ∧
     (stopStreamingRun s r).isRecording = s.isRecording ∧
     (stopStreamingRun s r).cameraStatus = s.cameraStatus ∧
     (stopStreamingRun s r).isLoading = false ∧
     (stopStreamingRun s r).error.isSome = true ∧
     stopStreamingCalls = [.cameraStop]) ∧
    ((restartCameraRun s r sr).1.isStreaming = s.isStreaming ∧
     (restartCameraRun s r sr).1.isRecording = s.isRecording ∧
     (restartCameraRun s r sr).1.cameraStatus = s.cameraStatus ∧
     (restartCameraRun s r sr).1.isLoading = false ∧
     (restartCameraRun s r sr).1.error.isSome = true ∧
     (restartCameraRun s r sr).2 = [.cameraRestart]) ∧
    ((capturePictureRun s rc).isStreaming = s.isStreaming ∧
     (capturePictureRun s rc).isRecording = s.isRecording ∧
     (capturePictureRun s rc).cameraStatus = s.cameraStatus ∧
     (capturePictureRun s rc).isCapturing = false ∧
     (capturePictureRun s rc).error.isSome = true ∧
     capturePictureCalls = [.captureCall]) ∧
    ((startRecordingRun s rs).isStreaming = s.isStreaming ∧
     (startRecordingRun s rs).isRecording = s.isRecording ∧
     (startRecordingRun s rs).cameraStatus = s.cameraStatus ∧
     (startRecordingRun s rs).isLoading = s.isLoading ∧
     (startRecordingRun s rs).isCapturing = s.isCapturing ∧
     (startRecordingRun s rs).error.isSome = true ∧
     startRecordingCalls = [.recordStartCall]) ∧
    ((stopRecordingRun s rr).isStreaming = s.isStreaming ∧
     (stopRecordingRun s rr).isRecording = s.isRecording ∧
     (stopRecordingRun s rr).cameraStatus = s.cameraStatus ∧
     (stopRecordingRun s rr).recordingDuration = s.recordingDuration ∧
     (stopRecordingRun s rr).error.isSome = true ∧
     stopRecordingCalls = [.recordStopCall]) := by
  refine ⟨?_, ?_, ?_, ?_, ?_, ?_⟩
  · rcases r with v | body | _ <;> simp_all [startStreamingRun, Resp.isFail, startStreamingCalls]
  · rcases r with v | body | _ <;> simp_all [stopStreamingRun, Resp.isFail, stopStreamingCalls]
  · rcases r with v | body | _ <;> simp_all [restartCameraRun, Resp.isFail]
  · rcases rc with v | body | _ <;> simp_all [capturePictureRun, Resp.isFail, capturePictureCalls]
  · rcases rs with v | body | _ <;> simp_all [startRecordingRun, Resp.isFail, startRecordingCalls]
  · rcases rr with v | body | _ <;> simp_all [stopRecordingRun, Resp.isFail, stopRecordingCalls]

/-- C7 witness: the failure-frame theorem instantiated at the idle connected
state with thrown network errors on every command. -/
theorem c7_witness :
    (Resp.isFail (α := Unit) .netErr = true) ∧
    (Resp.isFail (α := CaptureResult) .netErr = true) ∧
    (Resp.isFail (α := String) .netErr = true) ∧
    (Resp.isFail (α := RecordingResult) .netErr = true) ∧
    (((startStreamingRun baseClientState .netErr).isStreaming = baseClientState.isStreaming ∧
      (startStreamingRun baseClientState .netErr).isRecording = baseClientState.isRecording ∧
      (startStreamingRun baseClientState .netErr).cameraStatus = baseClientState.cameraStatus ∧
      (startStreamingRun baseClientState .netErr).isLoading = false ∧
      (startStreamingRun baseClientState .netErr).error.isSome = true ∧
      startStreamingCalls = [.cameraStart]) ∧
     ((stopStreamingRun baseClientState .netErr).isStreaming = baseClientState.isStreaming ∧
      (stopStreamingRun baseClientState .netErr).isRecording = baseClientState.isRecording ∧
      (stopStreamingRun baseClientState .netErr).cameraStatus = baseClientState.cameraStatus ∧
      (stopStreamingRun baseClientState .netErr).isLoading = false ∧
      (stopStreamingRun baseClientState .netErr).error.isSome = true ∧
      stopStreamingCalls = [.cameraStop]) ∧
     ((restartCameraRun baseClientState .netErr .netErr).1.isStreaming = baseClientState.isStreaming ∧
      (restartCameraRun baseClientState .netErr .netErr).1.isRecording = baseClientState.isRecording ∧
      (restartCameraRun baseClientState .netErr .netErr).1.cameraStatus = baseClientState.cameraStatus ∧
      (restartCameraRun baseClientState .netErr .netErr).1.isLoading = false ∧
      (restartCameraRun baseClientState .netErr .netErr).1.error.isSome = true ∧
      (restartCameraRun baseClientState .netErr .netErr).2 = [.cameraRestart]) ∧
     ((capturePictureRun baseClientState .netErr).isStreaming = baseClientState.isStreaming ∧
      (capturePictureRun baseClientState .netErr).isRecording = baseClientState.isRecording ∧
      (capturePictureRun baseClientState .netErr).cameraStatus = baseClientState.cameraStatus ∧
      (capturePictureRun baseClientState .netErr).isCapturing = false ∧
      (capturePictureRun baseClientState .netErr).error.isSome = true ∧
      capturePictureCalls = [.captureCall]) ∧
     ((startRecordingRun baseClientState .netErr).isStreaming = baseClientState.isStreaming ∧
      (startRecordingRun baseClientState .netErr).isRecording = baseClientState.isRecording ∧
      (startRecordingRun baseClientState .netErr).cameraStatus = baseClientState.cameraStatus ∧
      (startRecordingRun baseClientState .netErr).isLoading = baseClientState.isLoading ∧
      (startRecordingRun baseClientState .netErr).isCapturing = baseClientState.isCapturing ∧
      (startRecordingRun baseClientState .netErr).error.isSome = true ∧
      startRecordingCalls = [.recordStartCall]) ∧
     ((stopRecordingRun baseClientState .netErr).isStreaming = baseClientState.isStreaming ∧
      (stopRecordingRun baseClientState .netErr).isRecording = baseClientState.isRecording ∧
      (stopRecordingRun baseClientState .netErr).cameraStatus = baseClientState.cameraStatus ∧
      (stopRecordingRun baseClientState .netErr).recordingDuration = baseClientState.recordingDuration ∧
      (stopRecordingRun baseClientState .netErr).error.isSome = true ∧
      stopRecordingCalls = [.recordStopCall])) :=
  ⟨rfl, rfl, rfl, rfl,
    c7_failure_preserves_state baseClientState .netErr .netErr .netErr .netErr .netErr
      rfl rfl rfl rfl⟩

/-- C8: on a successful RESTART the handler awaits the status refresh before
returning — the transport trace is exactly the restart call followed by the
status fetch — and when that fetch succeeds the visible snapshot is replaced
wholesale from the fresh response (with the server marked connected), so no
prior snapshot state is assumed to survive the restart. -/
theorem c8_restart_refreshes (s : ClientState) (sr : Resp CameraStatus) (st : CameraStatus) :
    (restartCameraRun s (.ok ()) sr).2 = [.cameraRestart, .statusFetch] ∧
    (restartCameraRun s (.ok ()) (.ok st)).1.cameraStatus = some st ∧
    (restartCameraRun s (.ok ()) (.ok st)).1.isServerConnected = true := by
  refine ⟨rfl, ?_, ?_⟩ <;> cases h : st.recording <;>
    simp [restartCameraRun, checkStatusRun, h]

/-- C9: when both gallery responses are ok, the stored lists default a missing
`pictures` or `recordings` field to the empty list, the error cell is cleared,
and the file count and total size are computed over exactly those defaulted
lists. -/
theorem c9_gallery_defaults (g : GalleryData) (po ro : Option (List MediaFile)) :
    (fetchGalleryDataRun g (.ok ⟨po⟩) (.ok ⟨ro⟩)).2 = none ∧
    (fetchGalleryDataRun g (.ok ⟨po⟩) (.ok ⟨ro⟩)).1.pictures = po.getD [] ∧
    (fetchGalleryDataRun g (.ok ⟨po⟩) (.ok ⟨ro⟩)).1.recordings = ro.getD [] ∧
    (fetchGalleryDataRun g (.ok ⟨none⟩) (.ok ⟨ro⟩)).1.pictures = [] ∧
    (fetchGalleryDataRun g (.ok ⟨po⟩) (.ok ⟨none⟩)).1.recordings = [] ∧
    totalFiles (fetchGalleryDataRun g (.ok ⟨po⟩) (.ok ⟨ro⟩)).1 =
      (po.getD []).length + (ro.getD []).length ∧
    totalSize (fetchGalleryDataRun g (.ok ⟨po⟩) (.ok ⟨ro⟩)).1 =
      (po.getD [] ++ ro.getD []).foldl (fun sum file => sum + file.size) 0 := by
  simp [fetchGalleryDataRun, totalFiles, totalSize]

/-- C10: on a successful mode-change response that was not short-circuited,
local state is updated only when the requested id is found among the locally
fetched modes: if the lookup fails, `currentMode`, `selectedModeId` and the
parent callback are all untouched; if it finds a mode, `currentMode` becomes
that mode, `selectedModeId` becomes the requested id and the parent callback
receives the found mode. -/
theorem c10_update_only_if_found (ms : ModeSelector.ModeSelectorState) (modeId : String)
    (hsc : ModeSelector.changeModeShortCircuit ms modeId = false) :
    match ms.modes.find? (fun m => m.id == modeId) with
    | none =>
      (ModeSelector.changeModeRun ms modeId (.ok ())).state.currentMode = ms.currentMode ∧
      (ModeSelector.changeModeRun ms modeId (.ok ())).state.selectedModeId = ms.selectedModeId ∧
      (ModeSelector.changeModeRun ms modeId (.ok ())).callback = none
    | some m =>
      (ModeSelector.changeModeRun ms modeId (.ok ())).state.currentMode = some m ∧
      (ModeSelector.changeModeRun ms modeId (.ok ())).state.selectedModeId = modeId ∧
      (ModeSelector.changeModeRun ms modeId (.ok ())).callback = some m := by
  cases hf : ms.modes.find? (fun m => m.id == modeId) with
  | none => simp [ModeSelector.changeModeRun, hsc, hf]
  | some m => simp [ModeSelector.changeModeRun, hsc, hf]

/-- C10 witness: requesting an id absent from the fetched modes list leaves
the selector state untouched and fires no callback. -/
theorem c10_witness :
    ModeSelector.changeModeShortCircuit exampleSelectorState "fourk" = false ∧
    (match exampleSelectorState.modes.find? (fun m => m.id == "fourk") with
     | none =>
       (ModeSelector.changeModeRun exampleSelectorState "fourk" (.ok ())).state.currentMode =
         exampleSelectorState.currentMode ∧
       (ModeSelector.changeModeRun exampleSelectorState "fourk" (.ok ())).state.selectedModeId =
         exampleSelectorState.selectedModeId ∧
       (ModeSelector.changeModeRun exampleSelectorState "fourk" (.ok ())).callback = none
     | some m =>
       (ModeSelector.changeModeRun exampleSelectorState "fourk" (.ok ())).state.currentMode =
         some m ∧
       (ModeSelector.changeModeRun exampleSelectorState "fourk" (.ok ())).state.selectedModeId =
         "fourk" ∧
       (ModeSelector.changeModeRun exampleSelectorState "fourk" (.ok ())).callback = some m) :=
  ⟨by decide, c10_update_only_if_found exampleSelectorState "fourk" (by decide)⟩
